import Mathlib

/-!
Verification of the client-side session and state-machine layer of the
quantotelarischi front end (a two-party betting/challenge game client).

The embedding below follows the source:
  - `src/lib/models/rooms.ts` — the zod message-schema layer
    (`RoomInfoSchema`, `IncomingActionSchema`);
  - the `BettingGame` component — connection setup (`reconnectAfterMs`,
    `eventHandlers`, the `channel.on` dispatch), the state-machine reducer
    (`handleIncomingMessage`), the local reset (`resetGame`,
    `handleResetGame`), the bet precondition gate (`handlePlaceBet`) and
    role derivation (`isChallenger`).

JSON values carried by the wire protocol are modelled by `JVal`; a zod
`.nullish()` field is modelled as an `Option`, with `none` standing for an
absent (`null` or `undefined`) value.  JavaScript numbers are modelled as
`Int`: every comparison appearing in the embedded code is an order or
equality test on whole-number amounts, so no fractional behaviour is lost.
-/

namespace QuantoTelaRischi

/-- Bet status enumeration, from the `betStatus` enum of `RoomInfoSchema`
(`z.enum(['completed', 'not_completed'])`). -/
inductive BetStatus
  | completed
  | not_completed
  deriving DecidableEq, Repr

/-- Client-facing room snapshot: the camelCase result of the
`RoomInfoSchema` transform.  `none` in an `Option` field models a nullish
(`null`/`undefined`) value; `createdAt` keeps the raw date string. -/
structure RoomInfo where
  roomId : String
  challengerId : Option String
  challengedId : Option String
  challengeAmount : Option Int
  challengeDescription : Option String
  challengerBetAmount : Option Int
  challengedBetAmount : Option Int
  createdAt : Option String
  betStatus : Option BetStatus
  deriving DecidableEq, Repr

/-- Local finite-state projection of the challenge/bet lifecycle
(the `GameState` union type of the component). -/
inductive GameState
  | Idle
  | ChallengeSent
  | ChallengeReceived
  | ChallengeAccepted
  | ChallengeDeclined
  | BetPlaced
  | BetCompleted
  deriving DecidableEq, Repr

/-- A validated inbound action, as handled by the `match` in
`handleIncomingMessage`.  The payload of each variant carries the fields of
the corresponding schema variant after validation. -/
inductive IncomingAction
  | userJoined (payload : RoomInfo)
  | challengeReceived (challenge_description : String)
  | challengeAccepted (amount : Int)
  | challengeDeclined (declined_by : String)
  | betCompleted (status : BetStatus) (challenger_amount : Int) (challenged_amount : Int)
  | userLeft (user_id : String)
  | gameReset
  deriving DecidableEq, Repr

/-- The local component state of `BettingGame`: the `useState` hooks
`isConnected`, `roomInfo`, `userId`, `challengeBetAmount`, `betAmount`,
`challengeDescription`, `gameState`, `copied`, `hasPlacedBet`. -/
structure ClientState where
  isConnected : Bool
  roomInfo : Option RoomInfo
  userId : Option String
  challengeBetAmount : Int
  betAmount : Int
  challengeDescription : String
  gameState : GameState
  copied : Bool
  hasPlacedBet : Bool
  deriving DecidableEq, Repr

/-- The initial component state: `useState(false)`, `useState<RoomInfo>()`,
`useState<string>()`, `useState(100)`, `useState(1)`, `useState('')`,
`useState<GameState>('Idle')`, `useState(false)`, `useState(false)`. -/
def initialState : ClientState :=
  { isConnected := false
    roomInfo := none
    userId := none
    challengeBetAmount := 100
    betAmount := 1
    challengeDescription := ""
    gameState := GameState.Idle
    copied := false
    hasPlacedBet := false }

/-- The local `resetGame` function: sets `gameState` to `Idle`, restores the
drafts `challengeDescription := ''`, `challengeBetAmount := 100`,
`betAmount := 1` and clears `hasPlacedBet`.  It performs no `setRoomInfo`
call, so `roomInfo` is untouched. -/
def resetGame (s : ClientState) : ClientState :=
  { s with
    gameState := GameState.Idle
    challengeDescription := ""
    challengeBetAmount := 100
    betAmount := 1
    hasPlacedBet := false }

/-- The `handleResetGame` click handler: runs `resetGame` locally and then
pushes the outbound `reset_game` message; the push does not change local
state, so only the `resetGame` effect is visible here. -/
def handleResetGame (s : ClientState) : ClientState :=
  resetGame s

/-- The state-machine reducer `handleIncomingMessage`: the `match(action)`
over validated inbound actions.  Each `setRoomInfo(prev => prev && ...)`
patch is `Option.map` (an absent `roomInfo` stays absent). -/
def handleIncomingMessage (action : IncomingAction) (s : ClientState) : ClientState :=
  match action with
  | .userJoined payload => { s with roomInfo := some payload }
  | .challengeReceived d =>
      { s with
        gameState := GameState.ChallengeReceived
        roomInfo := s.roomInfo.map fun prev => { prev with challengeDescription := some d } }
  | .challengeAccepted amount =>
      { s with
        gameState := GameState.ChallengeAccepted
        roomInfo := s.roomInfo.map fun prev => { prev with challengeAmount := some amount } }
  | .challengeDeclined _ => { s with gameState := GameState.ChallengeDeclined }
  | .betCompleted status challenger_amount challenged_amount =>
      { s with
        gameState := GameState.BetCompleted
        roomInfo := s.roomInfo.map fun prev =>
          { prev with
            challengedBetAmount := some challenged_amount
            challengerBetAmount := some challenger_amount
            betStatus := some status } }
  | .userLeft _ => { s with gameState := GameState.Idle, roomInfo := none }
  | .gameReset => resetGame s

/-- Role derivation (`useMemo`): `userId === roomInfo?.challengerId`.
Strict equality of two absent values is modelled as `none == none`. -/
def isChallenger (userId : Option String) (roomInfo : Option RoomInfo) : Bool :=
  userId == roomInfo.bind RoomInfo.challengerId

/-- The challenge amount reachable through `roomInfo?.challengeAmount`. -/
def challengeAmountOf (roomInfo : Option RoomInfo) : Option Int :=
  roomInfo.bind RoomInfo.challengeAmount

/-- Outcome of the `handlePlaceBet` click handler: which toast fired, or
the amount pushed as a `place_bet` message. -/
inductive PlaceBetOutcome
  | rejectedNonPositive
  | rejectedOverLimit (limit : Int)
  | sent (amount : Int)
  deriving DecidableEq, Repr

/-- The `handlePlaceBet` precondition gate, over the state it reads
(`roomInfo`, `betAmount`):
`if (!betAmount || betAmount <= 0)` shows the invalid-amount toast;
`if (roomInfo?.challengeAmount && betAmount >= roomInfo.challengeAmount)`
shows the over-limit toast (a number is truthy iff non-zero); otherwise the
`place_bet` message is sent. -/
def handlePlaceBet (roomInfo : Option RoomInfo) (betAmount : Int) : PlaceBetOutcome :=
  if betAmount = 0 ∨ betAmount ≤ 0 then PlaceBetOutcome.rejectedNonPositive
  else
    match challengeAmountOf roomInfo with
    | some c =>
        if c ≠ 0 ∧ betAmount ≥ c then PlaceBetOutcome.rejectedOverLimit c
        else PlaceBetOutcome.sent betAmount
    | none => PlaceBetOutcome.sent betAmount

/-- The socket's reconnection backoff table `[1000, 2000, 5000, 10000]`. -/
def reconnectDelays : List Int := [1000, 2000, 5000, 10000]

/-- The socket option `reconnectAfterMs`:
`tries => [1000, 2000, 5000, 10000][tries - 1] || 10000`.
An out-of-bounds (or negative) index yields `undefined`, and the `||`
falls back to `10000`. -/
def reconnectAfterMs (tries : Int) : Int :=
  (if 0 ≤ tries - 1 then reconnectDelays.get? (tries - 1).toNat else none).getD 10000

/-- The list of event names the component subscribes to with
`channel.on` after a successful join. -/
def eventHandlers : List String :=
  ["user_joined", "challenge_received", "challenge_accepted",
   "challenge_declined", "bet_completed", "user_left", "game_reset"]

/-- JSON values carried by the wire protocol.  A missing object key models
a JavaScript `undefined`. -/
inductive JVal
  | jnull
  | jbool (b : Bool)
  | jnum (n : Int)
  | jstr (s : String)
  | jobj (fields : List (String × JVal))

/-- Key lookup in a JSON object; `none` models an absent key. -/
def getField (fields : List (String × JVal)) (key : String) : Option JVal :=
  (fields.find? fun kv => kv.1 == key).map fun kv => kv.2

/-- Requires the value to be a JSON object (`z.object`). -/
def asObj : JVal → Option (List (String × JVal))
  | .jobj fields => some fields
  | _ => none

/-- `z.string()` on a field value: accepts exactly a string. -/
def zString : Option JVal → Option String
  | some (.jstr s) => some s
  | _ => none

/-- `z.number()` on a field value: accepts exactly a number. -/
def zNumber : Option JVal → Option Int
  | some (.jnum n) => some n
  | _ => none

/-- `z.string().nullish()`: a missing or null field validates to an absent
value; a string validates to itself; anything else fails. -/
def zNullishString : Option JVal → Option (Option String)
  | none => some none
  | some .jnull => some none
  | some (.jstr s) => some (some s)
  | _ => none

/-- `z.number().nullish()`. -/
def zNullishNumber : Option JVal → Option (Option Int)
  | none => some none
  | some .jnull => some none
  | some (.jnum n) => some (some n)
  | _ => none

/-- `z.enum(['completed', 'not_completed'])` on a required field. -/
def zBetStatus : Option JVal → Option BetStatus
  | some (.jstr s) =>
      if s = "completed" then some BetStatus.completed
      else if s = "not_completed" then some BetStatus.not_completed
      else none
  | _ => none

/-- `z.enum(['completed', 'not_completed']).nullish()`. -/
def zNullishBetStatus : Option JVal → Option (Option BetStatus)
  | none => some none
  | some .jnull => some none
  | some (.jstr s) =>
      if s = "completed" then some (some BetStatus.completed)
      else if s = "not_completed" then some (some BetStatus.not_completed)
      else none
  | _ => none

/-- `RoomInfoSchema.parse`: validates the snake_case wire object and
applies the camelCase transform.  The `createdAt` transform
`data.createdAt ? ... : null` maps an empty string (falsy) to `none`. -/
def parseRoomInfo (v : JVal) : Option RoomInfo :=
  match asObj v with
  | none => none
  | some fs => do
      let roomId ← zString (getField fs "room_id")
      let challengerId ← zNullishString (getField fs "challenger_id")
      let challengedId ← zNullishString (getField fs "challenged_id")
      let challengeAmount ← zNullishNumber (getField fs "challenge_amount")
      let challengeDescription ← zNullishString (getField fs "challenge_description")
      let challengerBetAmount ← zNullishNumber (getField fs "challenger_bet_amount")
      let challengedBetAmount ← zNullishNumber (getField fs "challenged_bet_amount")
      let createdAtRaw ← zNullishString (getField fs "createdAt")
      let betStatus ← zNullishBetStatus (getField fs "betStatus")
      pure
        { roomId := roomId
          challengerId := challengerId
          challengedId := challengedId
          challengeAmount := challengeAmount
          challengeDescription := challengeDescription
          challengerBetAmount := challengerBetAmount
          challengedBetAmount := challengedBetAmount
          createdAt :=
            match createdAtRaw with
            | some s => if s = "" then none else some s
            | none => none
          betStatus := betStatus }

/-- `IncomingActionSchema.parse` applied to `{ event, payload }` as built in
the `channel.on` callback: dispatch on the `event` discriminator, then
validate the payload against that variant's shape.  The discriminated union
of `rooms.ts` has exactly six variants — `challenge_received`,
`challenge_accepted`, `challenge_declined`, `bet_completed`, `user_joined`,
`user_left`; any other tag (in particular `game_reset`) has no variant and
fails validation. -/
def parseIncomingAction (event : String) (payload : JVal) : Option IncomingAction :=
  match event with
  | "challenge_received" => do
      let fs ← asObj payload
      let d ← zString (getField fs "challenge_description")
      pure (IncomingAction.challengeReceived d)
  | "challenge_accepted" => do
      let fs ← asObj payload
      let amount ← zNumber (getField fs "amount")
      pure (IncomingAction.challengeAccepted amount)
  | "challenge_declined" => do
      let fs ← asObj payload
      let declined_by ← zString (getField fs "declined_by")
      pure (IncomingAction.challengeDeclined declined_by)
  | "bet_completed" => do
      let fs ← asObj payload
      let status ← zBetStatus (getField fs "status")
      let challenger_amount ← zNumber (getField fs "challenger_amount")
      let challenged_amount ← zNumber (getField fs "challenged_amount")
      pure (IncomingAction.betCompleted status challenger_amount challenged_amount)
  | "user_joined" => (parseRoomInfo payload).map IncomingAction.userJoined
  | "user_left" => do
      let fs ← asObj payload
      let user_id ← zString (getField fs "user_id")
      pure (IncomingAction.userLeft user_id)
  | _ => none

/-- One `channel.on` delivery: `IncomingActionSchema.parse` then
`handleIncomingMessage`.  A failed parse throws a `ZodError` out of the
callback before any state setter runs; the exception aborts only that
callback, so the delivery leaves the component state unchanged. -/
def processMessage (event : String) (payload : JVal) (s : ClientState) : ClientState :=
  match parseIncomingAction event payload with
  | some action => handleIncomingMessage action s
  | none => s

/-- Sample room used in concrete instantiations: challenge accepted at 10. -/
def sampleRoom : RoomInfo :=
  { roomId := "r1"
    challengerId := some "u1"
    challengedId := some "u2"
    challengeAmount := some 10
    challengeDescription := some "coin flip"
    challengerBetAmount := none
    challengedBetAmount := none
    createdAt := none
    betStatus := none }

/-- Sample room in a completed-bet configuration. -/
def sampleRoomFull : RoomInfo :=
  { roomId := "r1"
    challengerId := some "u1"
    challengedId := some "u2"
    challengeAmount := some 50
    challengeDescription := some "coin flip"
    challengerBetAmount := some 20
    challengedBetAmount := some 30
    createdAt := none
    betStatus := some BetStatus.completed }

/-- Sample room whose challenge amount is zero (falsy in JavaScript). -/
def roomZeroChallenge : RoomInfo :=
  { sampleRoom with challengeAmount := some 0 }

/-- Sample room whose challenge amount is negative (truthy in JavaScript). -/
def roomNegChallenge : RoomInfo :=
  { sampleRoom with challengeAmount := some (-10) }

/-- A client state mid-game, holding `sampleRoomFull`. -/
def stateWithBet : ClientState :=
  { isConnected := true
    roomInfo := some sampleRoomFull
    userId := some "u1"
    challengeBetAmount := 100
    betAmount := 1
    challengeDescription := ""
    gameState := GameState.BetCompleted
    copied := false
    hasPlacedBet := true }

/-- Claim C1 (code bug): the component subscribes to `game_reset` and its
reducer has a branch for it, but the inbound discriminated union
`IncomingActionSchema` has no `game_reset` variant, so every inbound
`game_reset` message fails validation and never reaches
`handleIncomingMessage`: the delivery leaves the component state unchanged. -/
theorem c1_game_reset_never_reaches_handler :
    "game_reset" ∈ eventHandlers
    ∧ (∀ payload : JVal, parseIncomingAction "game_reset" payload = none)
    ∧ (∀ (payload : JVal) (s : ClientState), processMessage "game_reset" payload s = s) :=
  ⟨by decide, fun _ => rfl, fun _ _ => rfl⟩

/-- Claim C2: an inbound message whose payload fails validation against its
declared event's schema is rejected before the state machine — the delivery
leaves the whole component state (in particular `gameState` and `roomInfo`)
unchanged, and only that single delivery is affected. -/
theorem c2_invalid_payload_rejected (event : String) (payload : JVal) (s : ClientState)
    (h : parseIncomingAction event payload = none) :
    processMessage event payload s = s := by
  unfold processMessage
  rw [h]

/-- Witness for C2: a `challenge_received` message missing its
`challenge_description` field fails validation and leaves the initial state
unchanged. -/
theorem c2_invalid_payload_rejected_witness :
    parseIncomingAction "challenge_received" (JVal.jobj []) = none
    ∧ processMessage "challenge_received" (JVal.jobj []) initialState = initialState :=
  ⟨rfl, c2_invalid_payload_rejected "challenge_received" (JVal.jobj []) initialState rfl⟩

/-- Claim C4: reset is idempotent — `resetGame` twice equals `resetGame`
once, running the inbound `game_reset` reducer branch after a local reset
changes nothing, and the once-reset state has `gameState = Idle`, the
drafts restored to their initial values and the bet-placed flag cleared. -/
theorem c4_reset_idempotent (s : ClientState) :
    resetGame (resetGame s) = resetGame s
    ∧ handleIncomingMessage IncomingAction.gameReset (resetGame s) = resetGame s
    ∧ (resetGame s).gameState = GameState.Idle
    ∧ (resetGame s).challengeDescription = ""
    ∧ (resetGame s).challengeBetAmount = 100
    ∧ (resetGame s).betAmount = 1
    ∧ (resetGame s).hasPlacedBet = false :=
  ⟨rfl, rfl, rfl, rfl, rfl, rfl, rfl⟩

/-- Claim C5 counterexample: after an inbound `game_reset`, `roomInfo` is
exactly what it was — `challengeAmount` is still `some 50` and `betStatus`
still `some completed`, refuting the claim that the transient bet/challenge
fields of `RoomInfo` are cleared. -/
theorem c5_game_reset_counterexample :
    (handleIncomingMessage IncomingAction.gameReset stateWithBet).roomInfo
      = some sampleRoomFull
    ∧ sampleRoomFull.challengeAmount = some 50
    ∧ sampleRoomFull.betStatus = some BetStatus.completed
    ∧ some (50 : Int) ≠ (none : Option Int) :=
  ⟨rfl, rfl, rfl, by decide⟩

/-- Claim C5 amended: processing `game_reset` sets `gameState` to `Idle`,
clears the local drafts and the bet-placed flag, and leaves `roomInfo`
entirely unchanged — identity and transient fields alike are preserved. -/
theorem c5_game_reset_amended (s : ClientState) :
    (handleIncomingMessage IncomingAction.gameReset s).gameState = GameState.Idle
    ∧ (handleIncomingMessage IncomingAction.gameReset s).roomInfo = s.roomInfo
    ∧ (handleIncomingMessage IncomingAction.gameReset s).challengeDescription = ""
    ∧ (handleIncomingMessage IncomingAction.gameReset s).challengeBetAmount = 100
    ∧ (handleIncomingMessage IncomingAction.gameReset s).betAmount = 1
    ∧ (handleIncomingMessage IncomingAction.gameReset s).hasPlacedBet = false :=
  ⟨rfl, rfl, rfl, rfl, rfl, rfl⟩

/-- Claim C8: with a session `userId` and a room present, the derived
`isChallenger` flag equals the strict-equality test of `userId` against the
room's `challengerId`, and is true exactly when they coincide; it is a pure
function of the current `(userId, roomInfo)` pair. -/
theorem c8_role_derivation (u : String) (r : RoomInfo) :
    isChallenger (some u) (some r) = (some u == r.challengerId)
    ∧ (isChallenger (some u) (some r) = true ↔ r.challengerId = some u) := by
  refine ⟨rfl, ?_⟩
  show (some u == r.challengerId) = true ↔ r.challengerId = some u
  rw [beq_iff_eq]
  exact eq_comm

/-- Claim C3 counterexample: with `challengeAmount = some 0` (a falsy
number, so the upper-bound check is skipped) a bet of 5 is sent even though
5 is not strictly less than the challenge amount 0. -/
theorem c3_place_bet_gate_counterexample :
    handlePlaceBet (some roomZeroChallenge) 5 = PlaceBetOutcome.sent 5
    ∧ challengeAmountOf (some roomZeroChallenge) = some 0
    ∧ ¬ ((5 : Int) < 0) :=
  ⟨rfl, rfl, by decide⟩

/-- Claim C3 amended: provided the current `challengeAmount` is set and
non-zero, the `place_bet` message is sent if and only if the amount is
positive and strictly below the challenge amount; otherwise the attempt is
rejected locally with a user-visible toast and nothing is sent. -/
theorem c3_place_bet_gate_amended (roomInfo : Option RoomInfo) (c a : Int)
    (hc : challengeAmountOf roomInfo = some c) (hnz : c ≠ 0) :
    handlePlaceBet roomInfo a = PlaceBetOutcome.sent a ↔ 0 < a ∧ a < c := by
  unfold handlePlaceBet
  rw [hc]
  by_cases h1 : a = 0 ∨ a ≤ 0
  · rw [if_pos h1]
    constructor
    · intro h; simp at h
    · rintro ⟨ha, -⟩; omega
  · rw [if_neg h1]
    show (if c ≠ 0 ∧ a ≥ c then PlaceBetOutcome.rejectedOverLimit c
          else PlaceBetOutcome.sent a) = PlaceBetOutcome.sent a ↔ 0 < a ∧ a < c
    by_cases h2 : c ≠ 0 ∧ a ≥ c
    · rw [if_pos h2]
      obtain ⟨-, hge⟩ := h2
      constructor
      · intro h; simp at h
      · rintro ⟨-, hlt⟩; omega
    · rw [if_neg h2]
      push_neg at h1 h2
      obtain ⟨-, hpos⟩ := h1
      exact ⟨fun _ => ⟨hpos, h2 hnz⟩, fun _ => rfl⟩

/-- Witness for the amended C3: with challenge amount 10, a bet of 5 is in
range and is sent. -/
theorem c3_place_bet_gate_witness :
    handlePlaceBet (some sampleRoom) 5 = PlaceBetOutcome.sent 5 := by
  have h := c3_place_bet_gate_amended (some sampleRoom) 10 5 rfl (by decide)
  exact h.mpr (by decide)

/-- Claim C6: the reconnection backoff is 1000 ms, 2000 ms, 5000 ms and
10000 ms for attempts 1 to 4, and 10000 ms for every later attempt;
the function depends only on the attempt number. -/
theorem c6_reconnect_backoff (n : Int) (h : 1 ≤ n) :
    reconnectAfterMs n =
      if n = 1 then 1000 else if n = 2 then 2000 else if n = 3 then 5000 else 10000 := by
  by_cases h1 : n = 1
  · subst h1; decide
  by_cases h2 : n = 2
  · subst h2; decide
  by_cases h3 : n = 3
  · subst h3; decide
  by_cases h4 : n = 4
  · subst h4; decide
  rw [if_neg h1, if_neg h2, if_neg h3]
  unfold reconnectAfterMs
  rw [if_pos (by omega : (0 : Int) ≤ n - 1)]
  have hnone : reconnectDelays.get? (n - 1).toNat = none := by
    rw [List.get?_eq_none]
    simp only [reconnectDelays, List.length_cons, List.length_nil]
    omega
  rw [hnone]
  rfl

/-- Witness for C6: concrete delays of the first four attempts and of a
later attempt. -/
theorem c6_reconnect_backoff_witness :
    reconnectAfterMs 1 = 1000 ∧ reconnectAfterMs 2 = 2000 ∧ reconnectAfterMs 3 = 5000
    ∧ reconnectAfterMs 4 = 10000 ∧ reconnectAfterMs 7 = 10000 := by
  refine ⟨?_, ?_, ?_, ?_, ?_⟩
  · have h := c6_reconnect_backoff 1 (by decide); simpa using h
  · have h := c6_reconnect_backoff 2 (by decide); simpa using h
  · have h := c6_reconnect_backoff 3 (by decide); simpa using h
  · have h := c6_reconnect_backoff 4 (by decide); simpa using h
  · have h := c6_reconnect_backoff 7 (by decide); simpa using h

/-- Claim C7: a validated `bet_completed` event, with a room present, moves
`gameState` to `BetCompleted` and patches exactly `betStatus`,
`challengerBetAmount` and `challengedBetAmount` from the payload; every
other `RoomInfo` field keeps its previous value. -/
theorem c7_bet_completed_patch (s : ClientState) (r : RoomInfo)
    (status : BetStatus) (ca cda : Int) (h : s.roomInfo = some r) :
    (handleIncomingMessage (IncomingAction.betCompleted status ca cda) s).gameState
      = GameState.BetCompleted
    ∧ (handleIncomingMessage (IncomingAction.betCompleted status ca cda) s).roomInfo
      = some { r with
               challengedBetAmount := some cda
               challengerBetAmount := some ca
               betStatus := some status } := by
  unfold handleIncomingMessage
  rw [h]
  exact ⟨rfl, rfl⟩

/-- Witness for C7: the spec's concrete scenario — `bet_completed` with
status completed, challenger amount 50 and challenged amount 30. -/
theorem c7_bet_completed_patch_witness :
    (handleIncomingMessage (IncomingAction.betCompleted BetStatus.completed 50 30)
        stateWithBet).gameState = GameState.BetCompleted
    ∧ (handleIncomingMessage (IncomingAction.betCompleted BetStatus.completed 50 30)
        stateWithBet).roomInfo
      = some { sampleRoomFull with
               challengedBetAmount := some (30 : Int)
               challengerBetAmount := some (50 : Int)
               betStatus := some BetStatus.completed } :=
  c7_bet_completed_patch stateWithBet sampleRoomFull BetStatus.completed 50 30 rfl

/-- Claim C9 (implicit behaviour): with no `roomInfo` present, validated
`challenge_received`, `challenge_accepted` and `bet_completed` events still
change `gameState` to the corresponding state while `roomInfo` stays
absent, silently dropping the payload fields. -/
theorem c9_missing_room_inconsistency (s : ClientState) (d : String) (a : Int)
    (status : BetStatus) (ca cda : Int) (h : s.roomInfo = none) :
    ((handleIncomingMessage (IncomingAction.challengeReceived d) s).gameState
        = GameState.ChallengeReceived
      ∧ (handleIncomingMessage (IncomingAction.challengeReceived d) s).roomInfo = none)
    ∧ ((handleIncomingMessage (IncomingAction.challengeAccepted a) s).gameState
        = GameState.ChallengeAccepted
      ∧ (handleIncomingMessage (IncomingAction.challengeAccepted a) s).roomInfo = none)
    ∧ ((handleIncomingMessage (IncomingAction.betCompleted status ca cda) s).gameState
        = GameState.BetCompleted
      ∧ (handleIncomingMessage (IncomingAction.betCompleted status ca cda) s).roomInfo
        = none) := by
  unfold handleIncomingMessage
  rw [h]
  exact ⟨⟨rfl, rfl⟩, ⟨rfl, rfl⟩, ⟨rfl, rfl⟩⟩

/-- Witness for C9: the initial state has no room; each of the three
events still flips `gameState` while `roomInfo` stays absent. -/
theorem c9_missing_room_inconsistency_witness :
    ((handleIncomingMessage (IncomingAction.challengeReceived "coin flip")
          initialState).gameState = GameState.ChallengeReceived
      ∧ (handleIncomingMessage (IncomingAction.challengeReceived "coin flip")
          initialState).roomInfo = none)
    ∧ ((handleIncomingMessage (IncomingAction.challengeAccepted 10)
          initialState).gameState = GameState.ChallengeAccepted
      ∧ (handleIncomingMessage (IncomingAction.challengeAccepted 10)
          initialState).roomInfo = none)
    ∧ ((handleIncomingMessage (IncomingAction.betCompleted BetStatus.completed 50 30)
          initialState).gameState = GameState.BetCompleted
      ∧ (handleIncomingMessage (IncomingAction.betCompleted BetStatus.completed 50 30)
          initialState).roomInfo = none) :=
  c9_missing_room_inconsistency initialState "coin flip" 10 BetStatus.completed 50 30 rfl

/-- Claim C10 counterexample: with `challengeAmount = some (-10)` (set and
non-zero) and bet amount -5 (which satisfies -5 ≥ -10), the over-limit
rejection does not fire — the positivity check fires first. -/
theorem c10_over_limit_counterexample :
    challengeAmountOf (some roomNegChallenge) = some (-10)
    ∧ ((-10 : Int) ≠ 0 ∧ (-5 : Int) ≥ -10)
    ∧ handlePlaceBet (some roomNegChallenge) (-5) = PlaceBetOutcome.rejectedNonPositive
    ∧ PlaceBetOutcome.rejectedNonPositive ≠ PlaceBetOutcome.rejectedOverLimit (-10) :=
  ⟨rfl, by decide, rfl, by decide⟩

/-- Claim C10 amended: for positive bet amounts, the over-limit rejection
fires exactly when `challengeAmount` is set, non-zero and at most the bet
amount; when `challengeAmount` is absent or zero the upper-bound check is
skipped and the positive bet is sent. -/
theorem c10_over_limit_amended (roomInfo : Option RoomInfo) (a : Int) (ha : 0 < a) :
    (∀ c : Int, challengeAmountOf roomInfo = some c →
        (handlePlaceBet roomInfo a = PlaceBetOutcome.rejectedOverLimit c ↔ c ≠ 0 ∧ a ≥ c))
    ∧ (challengeAmountOf roomInfo = none →
        handlePlaceBet roomInfo a = PlaceBetOutcome.sent a)
    ∧ (challengeAmountOf roomInfo = some 0 →
        handlePlaceBet roomInfo a = PlaceBetOutcome.sent a) := by
  have h1 : ¬ (a = 0 ∨ a ≤ 0) := by omega
  refine ⟨?_, ?_, ?_⟩
  · intro c hc
    unfold handlePlaceBet
    rw [if_neg h1, hc]
    show (if c ≠ 0 ∧ a ≥ c then PlaceBetOutcome.rejectedOverLimit c
          else PlaceBetOutcome.sent a) = PlaceBetOutcome.rejectedOverLimit c ↔ c ≠ 0 ∧ a ≥ c
    by_cases h2 : c ≠ 0 ∧ a ≥ c
    · rw [if_pos h2]
      exact ⟨fun _ => h2, fun _ => rfl⟩
    · rw [if_neg h2]
      constructor
      · intro h; simp at h
      · intro h; exact absurd h h2
  · intro hc
    unfold handlePlaceBet
    rw [if_neg h1, hc]
  · intro hc
    unfold handlePlaceBet
    rw [if_neg h1, hc]
    show (if (0 : Int) ≠ 0 ∧ a ≥ 0 then PlaceBetOutcome.rejectedOverLimit 0
          else PlaceBetOutcome.sent a) = PlaceBetOutcome.sent a
    rw [if_neg (by simp : ¬ ((0 : Int) ≠ 0 ∧ a ≥ 0))]

/-- Witness for the amended C10: with challenge amount 10, a bet of 12
triggers the over-limit rejection. -/
theorem c10_over_limit_witness :
    handlePlaceBet (some sampleRoom) 12 = PlaceBetOutcome.rejectedOverLimit 10 := by
  have h := (c10_over_limit_amended (some sampleRoom) 12 (by decide)).1 10 rfl
  exact h.mpr (by decide)

end QuantoTelaRischi
